import Mathlib

/-!
Verification of the subprocess-execution behaviour of `test-stdin.py`.

The repository is a single script that spawns one child process with
`Popen(['python3', '-c', test_code], stdin=PIPE, stdout=PIPE, stderr=PIPE)`,
feeds it a fixed stdin payload through `process.communicate`, and prints the
captured streams and exit code.  The spec generalises the one inline
`Popen`/`communicate` call into a component `ProcessRunner.run`; that
component is not itself a source file, so it is modelled here from the
spec's contract.  The child program's behaviour (the Python snippet
`test_code`) and the reporting section of the script are embedded from the
source.
-/

/-- A byte sequence, one natural number per byte. -/
abbrev ByteSeq := List Nat

/-- Bytes of an ASCII string: the code point of each character. -/
def ascii (s : String) : ByteSeq := s.toList.map Char.toNat

/-- Decoding of a byte sequence back to text, one character per byte
(models `bytes.decode()` on the ASCII output the script handles). -/
def decodeAscii (b : ByteSeq) : String := String.mk (b.map Char.ofNat)

/-- The result record of one invocation: captured stdout bytes, captured
stderr bytes, and the child's numeric exit code (spec section 3,
`ExecutionResult`). -/
structure ExecutionResult where
  stdout : ByteSeq
  stderr : ByteSeq
  exitCode : Int
deriving DecidableEq

/-- Modelled from the spec: the observable behaviour of a resolvable child
program — a deterministic map from the complete stdin contents (all bytes
written before end-of-input) to the final captured streams and exit code. -/
structure Program where
  behavior : ByteSeq → ExecutionResult

/-- Modelled from the spec: the host environment's executable-lookup
mechanism — a command either resolves to a startable program or fails
(missing binary, permission denied). -/
def Env := List String → Option Program

/-- Modelled from the spec's error taxonomy (section 7): `LaunchFailure`
(executable not found or not startable) and `IOFailure` (pipe fault outside
normal termination). -/
inductive RunError where
  | LaunchFailure
  | IOFailure
deriving DecidableEq

/-- Modelled from the spec: `ProcessRunner.run(command, input)`.  If the
command does not resolve, the call fails with `LaunchFailure`; otherwise the
child consumes exactly the provided input bytes (zero bytes when the input
is omitted) and the call returns the child's complete result. -/
def run (env : Env) (command : List String) (input : Option ByteSeq) :
    Except RunError ExecutionResult :=
  match env command with
  | none => Except.error RunError.LaunchFailure
  | some p => Except.ok (p.behavior (input.getD []))

/-- One step of the parent's I/O transcript: a write to the child's stdin,
the close of that stream, a read drained from stdout or stderr, or the wait
observing the exit code. -/
inductive IOEvent where
  | writeStdin (chunk : ByteSeq)
  | closeStdin
  | readStdout (chunk : ByteSeq)
  | readStderr (chunk : ByteSeq)
  | waitExit (code : Int)
deriving DecidableEq

/-- Modelled from the spec's algorithm (section 4.1, steps 1-5): the
parent's I/O transcript for one invocation of a resolved program — write the
full input payload, close stdin, drain stdout and stderr to completion, wait
for termination. -/
def runTrace (p : Program) (input : Option ByteSeq) : List IOEvent :=
  [IOEvent.writeStdin (input.getD []),
   IOEvent.closeStdin,
   IOEvent.readStdout (p.behavior (input.getD [])).stdout,
   IOEvent.readStderr (p.behavior (input.getD [])).stderr,
   IOEvent.waitExit (p.behavior (input.getD [])).exitCode]

/-- All bytes a transcript writes to the child's stdin, in order. -/
def writtenStdin (tr : List IOEvent) : ByteSeq :=
  tr.foldr
    (fun ev acc =>
      match ev with
      | IOEvent.writeStdin c => c ++ acc
      | _ => acc) []

/-- Number of stdin-write events in a transcript. -/
def writeCount (tr : List IOEvent) : Nat :=
  (tr.filter fun ev =>
    match ev with
    | IOEvent.writeStdin _ => true
    | _ => false).length

/-- Number of stdin-close events in a transcript. -/
def closeCount (tr : List IOEvent) : Nat :=
  (tr.filter fun ev =>
    match ev with
    | IOEvent.closeStdin => true
    | _ => false).length

/-- True when no stdin write follows the first stdin close. -/
def noWriteAfterClose : List IOEvent → Bool
  | [] => true
  | IOEvent.closeStdin :: rest =>
      rest.all fun ev =>
        match ev with
        | IOEvent.writeStdin _ => false
        | _ => true
  | _ :: rest => noWriteAfterClose rest

/-- All bytes a transcript drains from the child's stdout, in order. -/
def stdoutRead (tr : List IOEvent) : ByteSeq :=
  tr.foldr
    (fun ev acc =>
      match ev with
      | IOEvent.readStdout c => c ++ acc
      | _ => acc) []

/-- All bytes a transcript drains from the child's stderr, in order. -/
def stderrRead (tr : List IOEvent) : ByteSeq :=
  tr.foldr
    (fun ev acc =>
      match ev with
      | IOEvent.readStderr c => c ++ acc
      | _ => acc) []

/-- The Python snippet the script pipes to `python3 -c` (source lines
11-15): it reads two lines with `input(...)` and prints a greeting. -/
def testCode : String :=
  "\nname = input(\"Enter your name: \")\nage = input(\"Enter your age: \")\nprint(f\"Hello {name}, you are {age} years old!\")\n"

/-- The fixed stdin payload of the script (source line 17). -/
def testStdin : String := "Alice\n25\n"

/-- The prompt the snippet's first `input(...)` writes to stdout. -/
def promptName : String := "Enter your name: "

/-- The prompt the snippet's second `input(...)` writes to stdout. -/
def promptAge : String := "Enter your age: "

/-- Stderr text CPython emits when the snippet's first `input()` hits
end-of-input (snippet line 2). -/
def eofTracebackLine2 : String :=
  "Traceback (most recent call last):\n  File \"<string>\", line 2, in <module>\nEOFError: EOF when reading a line\n"

/-- Stderr text CPython emits when the snippet's second `input()` hits
end-of-input (snippet line 3). -/
def eofTracebackLine3 : String :=
  "Traceback (most recent call last):\n  File \"<string>\", line 3, in <module>\nEOFError: EOF when reading a line\n"

/-- One `input()` line read from the remaining stdin bytes: `none` at
end-of-input (EOFError), otherwise the bytes up to the first newline
(newline consumed but excluded; a final unterminated line is returned as
is), paired with the remaining bytes. -/
def readLine (s : ByteSeq) : Option (ByteSeq × ByteSeq) :=
  if s = [] then none
  else
    some (s.takeWhile (fun b => b != 10), (s.dropWhile (fun b => b != 10)).drop 1)

/-- Behaviour of `python3 -c test_code` on a given complete stdin, embedded
from the snippet: each `input(prompt)` writes its prompt to stdout (stdout
is a pipe, so prompts are not suppressed) and reads one line; at
end-of-input the snippet dies with an `EOFError` traceback on stderr and
exit code 1; otherwise `print` emits the greeting with a trailing newline
and the exit code is 0. -/
def testCodeRun (stdin : ByteSeq) : ExecutionResult :=
  match readLine stdin with
  | none =>
      { stdout := ascii promptName, stderr := ascii eofTracebackLine2, exitCode := 1 }
  | some (name, s1) =>
      match readLine s1 with
      | none =>
          { stdout := ascii promptName ++ ascii promptAge,
            stderr := ascii eofTracebackLine3, exitCode := 1 }
      | some (age, _) =>
          { stdout := ascii promptName ++ ascii promptAge ++ ascii "Hello " ++ name
              ++ ascii ", you are " ++ age ++ ascii " years old!\n",
            stderr := [], exitCode := 0 }

/-- The child program of the script, as a `Program`. -/
def testProgram : Program := { behavior := testCodeRun }

/-- The command the script launches (source line 29). -/
def testCommand : List String := ["python3", "-c", testCode]

/-- A program that ignores its input and exits with code 7 (the spec's
non-zero-exit example, section 8). -/
def exit7 : Program := { behavior := fun _ => { stdout := [], stderr := [], exitCode := 7 } }

/-- A concrete command for the exit-code-7 program. -/
def exit7Command : List String := ["sh", "-c", "exit 7"]

/-- A concrete environment: it resolves the script's command to the embedded
snippet, a shell command to the exit-code-7 program, and nothing else — in
particular not `definitely-not-a-real-binary-xyz`. -/
def testEnv : Env := fun cmd =>
  if cmd = testCommand then some testProgram
  else if cmd = exit7Command then some exit7
  else none

/-- Modelled from the spec: a possibly nondeterministic child program,
relating complete stdin contents to the observable results it may produce. -/
def NDProgram := ByteSeq → ExecutionResult → Prop

/-- A nondeterministic program is deterministic when each stdin determines
at most one result. -/
def Deterministic (p : NDProgram) : Prop :=
  ∀ i r₁ r₂, p i r₁ → p i r₂ → r₁ = r₂

/-- Modelled from the spec: `run` as a relation over possibly
nondeterministic children — an unresolvable command yields `LaunchFailure`,
a resolved program may yield any result it relates the fed input to. -/
inductive RunRel (env : List String → Option NDProgram) (cmd : List String)
    (input : Option ByteSeq) : Except RunError ExecutionResult → Prop where
  | launchFail : env cmd = none →
      RunRel env cmd input (Except.error RunError.LaunchFailure)
  | ok (p : NDProgram) (r : ExecutionResult) : env cmd = some p →
      p (input.getD []) r → RunRel env cmd input (Except.ok r)

/-- A nondeterministic echo program, deterministic in fact: it copies stdin
to stdout and exits 0. -/
def echoND : NDProgram := fun i r => r = { stdout := i, stderr := [], exitCode := 0 }

/-- An environment resolving only `["cat"]`, to the echo program. -/
def echoEnv : List String → Option NDProgram := fun cmd =>
  if cmd = ["cat"] then some echoND else none

/-- One printed item of the script's reporting section (source lines
32-40), tagged by which print statement emits it. -/
inductive ReportLine where
  | outputHeader
  | body (s : String)
  | errorsHeader
  | errorBody (s : String)
  | exitCodeLine (c : Int)
  | completionHint
deriving DecidableEq

/-- The script's reporting section (source lines 32-40): it always prints
the output header and the decoded stdout, prints the errors header and the
decoded stderr only when the captured stderr is non-empty (`if stderr:`),
and always prints the exit-code line and the final completion hint. -/
def report (stdout stderr : ByteSeq) (returncode : Int) : List ReportLine :=
  [ReportLine.outputHeader, ReportLine.body (decodeAscii stdout)]
    ++ (if stderr = [] then []
        else [ReportLine.errorsHeader, ReportLine.errorBody (decodeAscii stderr)])
    ++ [ReportLine.exitCodeLine returncode, ReportLine.completionHint]

/-- C1 counterexample: on the fixed input `b"Alice\n25\n"`, the command the
script actually launches (its `test_code` snippet) produces a stdout that is
not exactly `b"Hello Alice, you are 25 years old!\n"` — the two `input()`
prompts precede the greeting on stdout — although `run` does return that
result with the claimed exit behaviour. -/
theorem roundTrip_claim_false :
    (testCodeRun (ascii testStdin)).stdout ≠ ascii "Hello Alice, you are 25 years old!\n" ∧
    run testEnv testCommand (some (ascii testStdin)) =
      Except.ok (testCodeRun (ascii testStdin)) :=
  ⟨by decide, rfl⟩

/-- C1 (amended): on input `b"Alice\n25\n"`, running the script's command
returns an `ExecutionResult` whose stdout is exactly
`b"Enter your name: Enter your age: Hello Alice, you are 25 years old!\n"`
(the two `input()` prompts followed by the greeting) and whose exit code
is 0. -/
theorem roundTrip_with_prompts :
    testCodeRun (ascii testStdin) =
      { stdout := ascii "Enter your name: Enter your age: Hello Alice, you are 25 years old!\n",
        stderr := [], exitCode := 0 } ∧
    run testEnv testCommand (some (ascii testStdin)) =
      Except.ok (testCodeRun (ascii testStdin)) :=
  ⟨by decide, rfl⟩

/-- C2: for every program and every optional input, the invocation's I/O
transcript writes exactly the provided input bytes (zero bytes when the
input is omitted) to the child's stdin, in a single write, closes the stream
exactly once, and never writes to stdin after the close. -/
theorem run_writes_input_once (p : Program) (input : Option ByteSeq) :
    writtenStdin (runTrace p input) = input.getD [] ∧
    writeCount (runTrace p input) = 1 ∧
    closeCount (runTrace p input) = 1 ∧
    noWriteAfterClose (runTrace p input) = true := by
  refine ⟨?_, ?_, ?_, ?_⟩ <;>
    simp [runTrace, writtenStdin, writeCount, closeCount, noWriteAfterClose]

/-- C3: whenever the command resolves to a program, `run` returns normally
with the child's full result — whatever the exit code, including non-zero —
and never raises an error. -/
theorem run_nonzero_exit_is_data (env : Env) (cmd : List String)
    (input : Option ByteSeq) (p : Program) (h : env cmd = some p) :
    run env cmd input = Except.ok (p.behavior (input.getD [])) ∧
    ∀ e, run env cmd input ≠ Except.error e := by
  constructor
  · simp [run, h]
  · intro e
    simp [run, h]

/-- Witness for C3: a program that exits with code 7 yields
`exitCode == 7` as ordinary result data, with no error raised. -/
theorem run_nonzero_exit_is_data_witness :
    run testEnv exit7Command none =
      Except.ok { stdout := [], stderr := [], exitCode := 7 } ∧
    ∀ e, run testEnv exit7Command none ≠ Except.error e :=
  run_nonzero_exit_is_data testEnv exit7Command none exit7 rfl

/-- C4: `run` fails with `LaunchFailure` exactly when the command does not
resolve to a startable executable (in which case no `ExecutionResult` is
produced, the return being an error); in particular, in the concrete test
environment, `run(["definitely-not-a-real-binary-xyz"], None)` raises
`LaunchFailure`. -/
theorem run_launchFailure_iff :
    (∀ (env : Env) (cmd : List String) (input : Option ByteSeq),
      run env cmd input = Except.error RunError.LaunchFailure ↔ env cmd = none) ∧
    run testEnv ["definitely-not-a-real-binary-xyz"] none =
      Except.error RunError.LaunchFailure := by
  constructor
  · intro env cmd input
    constructor
    · intro h
      cases hc : env cmd with
      | none => rfl
      | some p => simp [run, hc] at h
    · intro h
      simp [run, h]
  · rfl

/-- C5: for every command that resolves to an executable program, `run`
returns an `ExecutionResult` whose exit code is defined — the child's. -/
theorem run_terminates_with_exit (env : Env) (cmd : List String)
    (input : Option ByteSeq) (p : Program) (h : env cmd = some p) :
    ∃ r, run env cmd input = Except.ok r ∧
      r.exitCode = (p.behavior (input.getD [])).exitCode :=
  ⟨p.behavior (input.getD []), by simp [run, h], rfl⟩

/-- Witness for C5: the script's own command and input produce a result
with a defined exit code. -/
theorem run_terminates_with_exit_witness :
    ∃ r, run testEnv testCommand (some (ascii testStdin)) = Except.ok r ∧
      r.exitCode = (testProgram.behavior ((some (ascii testStdin)).getD [])).exitCode :=
  run_terminates_with_exit testEnv testCommand (some (ascii testStdin)) testProgram rfl

/-- C6: omitting the input is identical to supplying the empty byte
sequence — `run` returns equal results and the I/O transcripts coincide
(zero bytes written, stream closed immediately). -/
theorem run_none_eq_empty (env : Env) (cmd : List String) (p : Program) :
    run env cmd none = run env cmd (some []) ∧
    runTrace p none = runTrace p (some []) :=
  ⟨rfl, rfl⟩

/-- C7: against a deterministic program, two invocations of `run` with
identical command and input yield identical stdout and identical exit
code. -/
theorem run_idempotent (env : List String → Option NDProgram) (cmd : List String)
    (input : Option ByteSeq) (p : NDProgram) (r₁ r₂ : ExecutionResult)
    (hp : env cmd = some p) (hd : Deterministic p)
    (h₁ : RunRel env cmd input (Except.ok r₁))
    (h₂ : RunRel env cmd input (Except.ok r₂)) :
    r₁.stdout = r₂.stdout ∧ r₁.exitCode = r₂.exitCode := by
  cases h₁ with
  | ok p₁ r₁x hp₁ hr₁ =>
    cases h₂ with
    | ok p₂ r₂x hp₂ hr₂ =>
      rw [hp] at hp₁ hp₂
      cases Option.some.inj hp₁
      cases Option.some.inj hp₂
      cases hd _ _ _ hr₁ hr₂
      exact ⟨rfl, rfl⟩

/-- Witness for C7: two invocations of the deterministic echo program on
the same input agree on stdout and exit code. -/
theorem run_idempotent_witness :
    ({ stdout := ascii "hi", stderr := [], exitCode := 0 } : ExecutionResult).stdout
        = ({ stdout := ascii "hi", stderr := [], exitCode := 0 } : ExecutionResult).stdout ∧
    ({ stdout := ascii "hi", stderr := [], exitCode := 0 } : ExecutionResult).exitCode
        = ({ stdout := ascii "hi", stderr := [], exitCode := 0 } : ExecutionResult).exitCode :=
  run_idempotent echoEnv ["cat"] (some (ascii "hi")) echoND
    { stdout := ascii "hi", stderr := [], exitCode := 0 }
    { stdout := ascii "hi", stderr := [], exitCode := 0 }
    rfl
    (fun _ _ _ ha hb => ha.trans hb.symm)
    (RunRel.ok echoND _ rfl rfl)
    (RunRel.ok echoND _ rfl rfl)

/-- C8: the result's stdout and stderr are exactly the complete stream
contents the transcript drains before termination, and the exit code is
observed only at the final wait event — never earlier in the transcript
(the result itself is a pure value, immutable once constructed). -/
theorem result_complete_after_termination (p : Program) (input : Option ByteSeq) :
    stdoutRead (runTrace p input) = (p.behavior (input.getD [])).stdout ∧
    stderrRead (runTrace p input) = (p.behavior (input.getD [])).stderr ∧
    ∃ pre, runTrace p input = pre ++ [IOEvent.waitExit (p.behavior (input.getD [])).exitCode] ∧
      ∀ c, IOEvent.waitExit c ∉ pre := by
  refine ⟨?_, ?_,
    ⟨[IOEvent.writeStdin (input.getD []), IOEvent.closeStdin,
      IOEvent.readStdout (p.behavior (input.getD [])).stdout,
      IOEvent.readStderr (p.behavior (input.getD [])).stderr], rfl, ?_⟩⟩
  · simp [runTrace, stdoutRead]
  · simp [runTrace, stderrRead]
  · intro c
    simp

/-- C10: the script's reporting section prints the errors header and the
decoded stderr text exactly when the captured stderr is non-empty, while
the decoded stdout, the exit-code line, and the final completion hint are
printed unconditionally, whatever the exit code. -/
theorem report_errors_iff (s e : ByteSeq) (c : Int) :
    (ReportLine.errorsHeader ∈ report s e c ↔ e ≠ []) ∧
    (ReportLine.errorBody (decodeAscii e) ∈ report s e c ↔ e ≠ []) ∧
    ReportLine.body (decodeAscii s) ∈ report s e c ∧
    ReportLine.exitCodeLine c ∈ report s e c ∧
    ReportLine.completionHint ∈ report s e c := by
  by_cases h : e = [] <;> simp [report, h]
